import Mathlib

/-!
Verification of the HealNav priority-scoring core
(`supabase/functions/predict-priority/index.ts`) against its natural-language
specification.  The scoring function, the action lookup, the notification
template and the safe-error mapping are embedded shallowly; machine integers
of the validated domain (age 0..150, duration 0..365) are modelled as `Nat`,
the string enums `pain_level`, `severity_level` and the priority tier as
inductive types, and the nullable `existing_disease` as `Option String`.
-/

namespace HealNav

/-- The `pain_level` enum `{mild, moderate, severe}` of the Zod schema. -/
inductive PainLevel
  | mild
  | moderate
  | severe
  deriving DecidableEq, Repr

/-- The `severity_level` enum `{low, medium, high, critical}` of the Zod schema. -/
inductive SeverityLevel
  | low
  | medium
  | high
  | critical
  deriving DecidableEq, Repr

/-- The priority tier returned by `predictPriority`: one of `"low" | "medium" | "high"`. -/
inductive Priority
  | low
  | medium
  | high
  deriving DecidableEq, Repr

/-- The wire string of a priority tier (in the source the tier is itself this string). -/
def priorityName : Priority → String
  | .low => "low"
  | .medium => "medium"
  | .high => "high"

/-- A validated patient symptom report (`PatientInput = z.infer<typeof patientSchema>`).
Ages and durations are nonnegative integers in the validated domain, so they are
modelled as `Nat`; `existing_disease` is nullable, hence `Option String`. -/
structure PatientInput where
  age : Nat
  gender : String
  chest_pain : Bool
  breathlessness : Bool
  fever : Bool
  pain_level : PainLevel
  symptom_duration_days : Nat
  severity_level : SeverityLevel
  existing_disease : Option String
  deriving DecidableEq, Repr

/-- The constraints the Zod schema imposes on a report (section 3 of the spec):
age at most 150, gender a nonempty alphabetic/whitespace string of at most 20
characters, duration at most 365 days, and the disease field, when present,
a nonempty string of at most 100 characters (the schema's trim-and-normalize
transform turns an empty or whitespace disease string into `null`). -/
def validReport (r : PatientInput) : Bool :=
  decide (r.age ≤ 150) &&
  r.gender != "" &&
  decide (r.gender.length ≤ 20) &&
  r.gender.data.all (fun c => c.isAlpha || c.isWhitespace) &&
  decide (r.symptom_duration_days ≤ 365) &&
  (match r.existing_disease with
   | none => true
   | some d => d != "" && decide (d.length ≤ 100))

/-- Age contribution of `predictPriority` (index.ts lines 92-94). -/
def agePoints (age : Nat) : Nat :=
  if age ≥ 70 then 25
  else if age ≥ 50 then 15
  else if age ≥ 30 then 5
  else 0

/-- Pain-level contribution (index.ts lines 102-104); the trailing `else` of the
source catches exactly `mild`, the only remaining enum value. -/
def painPoints (p : PainLevel) : Nat :=
  if p = PainLevel.severe then 25
  else if p = PainLevel.moderate then 15
  else 5

/-- Self-reported severity contribution (index.ts lines 107-110). -/
def severityPoints (s : SeverityLevel) : Nat :=
  if s = SeverityLevel.critical then 35
  else if s = SeverityLevel.high then 25
  else if s = SeverityLevel.medium then 15
  else 5

/-- Existing-condition contribution (index.ts lines 113-119).  The JavaScript
guard `data.existing_disease && data.existing_disease !== "None"` treats both
`null` and the empty string as falsy, so each contributes 0; string matching
is exact and case-sensitive, first match wins. -/
def diseasePoints : Option String → Nat
  | none => 0
  | some d =>
    if d ≠ "" ∧ d ≠ "None" then
      if d = "Heart Disease" then 20
      else if d = "Diabetes" then 15
      else if d = "Hypertension" then 15
      else if d = "Asthma" then 10
      else 5
    else 0

/-- Symptom-duration contribution (index.ts lines 122-123). -/
def durationPoints (d : Nat) : Nat :=
  if d ≤ 1 then 10
  else if d ≤ 3 then 5
  else 0

/-- The accumulated score of `predictPriority` (index.ts lines 89-123): the
factors are added in source order into the running `score`. -/
def totalScore (data : PatientInput) : Nat :=
  agePoints data.age
  + (if data.chest_pain then 30 else 0)
  + (if data.breathlessness then 25 else 0)
  + (if data.fever then 10 else 0)
  + painPoints data.pain_level
  + severityPoints data.severity_level
  + diseasePoints data.existing_disease
  + durationPoints data.symptom_duration_days

/-- Threshold bucketing of the accumulated score (index.ts lines 126-128). -/
def bucket (total : Nat) : Priority :=
  if total ≥ 75 then Priority.high
  else if total ≥ 45 then Priority.medium
  else Priority.low

/-- The scoring function `predictPriority` (index.ts lines 88-129): accumulate
the factor contributions, then bucket. -/
def predictPriority (data : PatientInput) : Priority :=
  if totalScore data ≥ 75 then Priority.high
  else if totalScore data ≥ 45 then Priority.medium
  else Priority.low

/-- The action lookup `getActionMessage` (index.ts lines 131-140). -/
def getActionMessage : Priority → String
  | .high => "Proceed to Emergency Ward immediately"
  | .medium => "Consult a doctor today"
  | .low => "OPD visit can be scheduled later"

/-- ASCII upper-casing of a character, the behaviour of JavaScript
`toUpperCase` on the lowercase ASCII strings that occur here. -/
def upChar (c : Char) : Char :=
  if 'a' ≤ c ∧ c ≤ 'z' then Char.ofNat (c.toNat - 32) else c

/-- ASCII upper-casing of a string (JavaScript `String.prototype.toUpperCase`
restricted to ASCII, which covers the three tier names). -/
def asciiUpper (s : String) : String := ⟨s.data.map upChar⟩

/-- The notification template `getNotificationMessage` (index.ts lines
142-157), transcribed literally from the template string of the source. -/
def getNotificationMessage (priority : Priority) (tokenNumber : String) : String :=
  let priorityText := asciiUpper (priorityName priority)
  let action := getActionMessage priority
  "Dear Patient,\n\nYour condition has been assessed as " ++ priorityText ++
    " priority.\n\nToken Number: " ++ tokenNumber ++ "\n\n" ++ action ++
    ".\n\nThank you for using HealNav.\n\n– HealNav - Smart Care Patient Priority System"

/-- The error values distinguished by `mapErrorToSafeResponse`: a Zod
validation error, a database error carrying a `code` field, or any other
thrown value; each carries its raw detail text. -/
inductive ErrorValue
  | zodError (details : String)
  | pgError (code : String) (details : String)
  | otherError (details : String)
  deriving DecidableEq, Repr

/-- A client-facing response: generic message plus HTTP status. -/
structure SafeResponse where
  message : String
  status : Nat
  deriving DecidableEq, Repr

/-- The boundary error mapping `mapErrorToSafeResponse` (index.ts lines
48-85): the detail text is only logged server-side and never enters the
returned response. -/
def mapErrorToSafeResponse : ErrorValue → SafeResponse
  | .zodError _ => ⟨"Invalid input data provided. Please check your submission.", 400⟩
  | .pgError code _ =>
    if code = "23505" then ⟨"A record with this information already exists", 409⟩
    else if code = "23503" then ⟨"Referenced record not found", 400⟩
    else ⟨"Unable to save patient information. Please try again.", 500⟩
  | .otherError _ => ⟨"An error occurred while processing your request", 500⟩

/-- The fixed set of generic client-facing messages the boundary layer may return. -/
def safeMessages : List String :=
  ["Invalid input data provided. Please check your submission.",
   "A record with this information already exists",
   "Referenced record not found",
   "Unable to save patient information. Please try again.",
   "An error occurred while processing your request"]

/-!
Spec-side definitions: a second reading of the scoring rule set, written from
the wording of section 4.1 of the specification (age bands, binary symptoms,
pain level, self-reported severity, existing condition, symptom duration,
then threshold bucketing), to be compared with the embedding of the source.
-/

/-- Age band of spec section 4.1: first-match order 70, 50, 30, else 0. -/
def specAgePoints (age : Nat) : Nat :=
  if age ≥ 70 then 25
  else if age ≥ 50 then 15
  else if age ≥ 30 then 5
  else 0

/-- Pain-level band of spec section 4.1: severe 25, moderate 15, mild 5. -/
def specPainPoints : PainLevel → Nat
  | .severe => 25
  | .moderate => 15
  | .mild => 5

/-- Severity band of spec section 4.1: critical 35, high 25, medium 15, low 5. -/
def specSeverityPoints : SeverityLevel → Nat
  | .critical => 35
  | .high => 25
  | .medium => 15
  | .low => 5

/-- Existing-condition band of spec sections 3 and 4.1: absent, empty or the
sentinel "None" contribute 0; otherwise exact case-sensitive first-match over
the four named diseases, any other value 5. -/
def specDiseasePoints : Option String → Nat
  | none => 0
  | some d =>
    if d = "" ∨ d = "None" then 0
    else if d = "Heart Disease" then 20
    else if d = "Diabetes" then 15
    else if d = "Hypertension" then 15
    else if d = "Asthma" then 10
    else 5

/-- Duration band of spec section 4.1: at most 1 day 10, at most 3 days 5, else 0. -/
def specDurationPoints (d : Nat) : Nat :=
  if d ≤ 1 then 10
  else if d ≤ 3 then 5
  else 0

/-- The additive total of all band contributions as spec section 4.1 lists them. -/
def specBandTotal (r : PatientInput) : Nat :=
  specAgePoints r.age
  + (if r.chest_pain then 30 else 0)
  + (if r.breathlessness then 25 else 0)
  + (if r.fever then 10 else 0)
  + specPainPoints r.pain_level
  + specSeverityPoints r.severity_level
  + specDiseasePoints r.existing_disease
  + specDurationPoints r.symptom_duration_days

/-- Action table as spec section 4.2 lists it. -/
def specActionFor : Priority → String
  | .high => "Proceed to Emergency Ward immediately"
  | .medium => "Consult a doctor today"
  | .low => "OPD visit can be scheduled later"

/-- Notification template as spec section 4.2 describes it: the fixed
multi-paragraph layout embedding the uppercased priority name, the literal
token string and the result of the action table, with a blank line between
the token line and the action sentence and a closing signature line. -/
def specNotificationFor (p : Priority) (token : String) : String :=
  "Dear Patient,\n\nYour condition has been assessed as " ++
    asciiUpper (priorityName p) ++ " priority.\n\nToken Number: " ++ token ++
    "\n\n" ++ specActionFor p ++
    ".\n\nThank you for using HealNav.\n\n– HealNav - Smart Care Patient Priority System"

/-!
Band-rank functions: each contributing factor's bands in increasing order,
used to state per-factor monotonicity.
-/

/-- Rank of the age band: 0 for under 30, then one step per band. -/
def ageRank (age : Nat) : Nat :=
  if age ≥ 70 then 3
  else if age ≥ 50 then 2
  else if age ≥ 30 then 1
  else 0

/-- Rank of a binary symptom: absent 0, present 1. -/
def boolRank : Bool → Nat
  | false => 0
  | true => 1

/-- Rank of the pain-level band: mild 0, moderate 1, severe 2. -/
def painRank : PainLevel → Nat
  | .mild => 0
  | .moderate => 1
  | .severe => 2

/-- Rank of the severity band: low 0, medium 1, high 2, critical 3. -/
def sevRank : SeverityLevel → Nat
  | .low => 0
  | .medium => 1
  | .high => 2
  | .critical => 3

/-- Rank of the duration band: over 3 days 0, at most 3 days 1, at most 1 day 2. -/
def durationRank (d : Nat) : Nat :=
  if d ≤ 1 then 2
  else if d ≤ 3 then 1
  else 0

/-- Rank of a priority tier under the ordering low < medium < high. -/
def priorityRank : Priority → Nat
  | .low => 0
  | .medium => 1
  | .high => 2

/-- One report dominates another factor-wise when every contributing factor
sits in an equal or higher band (existing-condition bands ordered by their
point values); moving any single factor to a higher band while holding the
rest fixed is the special case in which all the other ranks are equal. -/
def FactorLe (r r' : PatientInput) : Prop :=
  ageRank r.age ≤ ageRank r'.age ∧
  boolRank r.chest_pain ≤ boolRank r'.chest_pain ∧
  boolRank r.breathlessness ≤ boolRank r'.breathlessness ∧
  boolRank r.fever ≤ boolRank r'.fever ∧
  painRank r.pain_level ≤ painRank r'.pain_level ∧
  sevRank r.severity_level ≤ sevRank r'.severity_level ∧
  diseasePoints r.existing_disease ≤ diseasePoints r'.existing_disease ∧
  durationRank r.symptom_duration_days ≤ durationRank r'.symptom_duration_days

instance (r r' : PatientInput) : Decidable (FactorLe r r') := by
  unfold FactorLe; infer_instance

/-- Concrete report of spec scenario 1: elderly patient, chest pain,
breathlessness, severe pain, critical severity, heart disease, one day. -/
def scenarioOneReport : PatientInput :=
  ⟨75, "Male", true, true, false, PainLevel.severe, 1, SeverityLevel.critical,
   some "Heart Disease"⟩

/-- Concrete mild baseline report used as a monotonicity witness. -/
def mildBaseReport : PatientInput :=
  ⟨40, "Female", false, false, false, PainLevel.mild, 5, SeverityLevel.low, none⟩

/-- The mild baseline with the pain level moved one band up, all else fixed. -/
def moderatePainReport : PatientInput :=
  { mildBaseReport with pain_level := PainLevel.moderate }

/-- The mild baseline carrying the lowercase disease string "heart disease". -/
def lowerCaseDiseaseReport : PatientInput :=
  { mildBaseReport with existing_disease := some "heart disease" }

/-!
Helper lemmas shared by the claim theorems.
-/

/-- Unfolding of `totalScore` into its eight summands. -/
lemma totalScore_def (r : PatientInput) :
    totalScore r =
      agePoints r.age
      + (if r.chest_pain then 30 else 0)
      + (if r.breathlessness then 25 else 0)
      + (if r.fever then 10 else 0)
      + painPoints r.pain_level
      + severityPoints r.severity_level
      + diseasePoints r.existing_disease
      + durationPoints r.symptom_duration_days := rfl

/-- Replacing only the disease field changes only the disease summand. -/
lemma totalScore_update_disease (r : PatientInput) (o : Option String) :
    totalScore { r with existing_disease := o } =
      agePoints r.age
      + (if r.chest_pain then 30 else 0)
      + (if r.breathlessness then 25 else 0)
      + (if r.fever then 10 else 0)
      + painPoints r.pain_level
      + severityPoints r.severity_level
      + diseasePoints o
      + durationPoints r.symptom_duration_days := rfl

/-- The scoring function buckets its accumulated total. -/
lemma predictPriority_eq_bucket (r : PatientInput) :
    predictPriority r = bucket (totalScore r) := rfl

/-- The source and spec disease bands agree on every value. -/
lemma diseasePoints_eq_spec (o : Option String) :
    diseasePoints o = specDiseasePoints o := by
  cases o with
  | none => rfl
  | some d =>
    by_cases h1 : d = ""
    · simp [diseasePoints, specDiseasePoints, h1]
    · by_cases h2 : d = "None"
      · simp [diseasePoints, specDiseasePoints, h1, h2]
      · simp [diseasePoints, specDiseasePoints, h1, h2]

/-- The accumulated total of the source equals the spec band total. -/
lemma totalScore_eq_specBandTotal (r : PatientInput) :
    totalScore r = specBandTotal r := by
  have hp : painPoints r.pain_level = specPainPoints r.pain_level := by
    cases r.pain_level <;> rfl
  have hs : severityPoints r.severity_level = specSeverityPoints r.severity_level := by
    cases r.severity_level <;> rfl
  have ha : agePoints r.age = specAgePoints r.age := rfl
  have hd : durationPoints r.symptom_duration_days =
      specDurationPoints r.symptom_duration_days := rfl
  rw [totalScore_def]
  unfold specBandTotal
  rw [hp, hs, ha, hd, diseasePoints_eq_spec]

/-- Bucketing is monotone in the total, under tier ranks low 0, medium 1, high 2. -/
lemma bucket_rank_mono {s t : Nat} (h : s ≤ t) :
    priorityRank (bucket s) ≤ priorityRank (bucket t) := by
  unfold bucket
  split_ifs <;> simp [priorityRank] <;> omega

/-- A higher age band never yields fewer age points. -/
lemma agePoints_mono {a a' : Nat} (h : ageRank a ≤ ageRank a') :
    agePoints a ≤ agePoints a' := by
  unfold ageRank at h
  unfold agePoints
  split_ifs at h ⊢ <;> omega

/-- Setting a binary symptom never loses its points. -/
lemma boolPoints_mono {b b' : Bool} (n : Nat) (h : boolRank b ≤ boolRank b') :
    (if b then n else 0) ≤ (if b' then n else 0) := by
  cases b <;> cases b' <;> simp_all [boolRank]

/-- A higher pain band never yields fewer pain points. -/
lemma painPoints_mono (p p' : PainLevel) (h : painRank p ≤ painRank p') :
    painPoints p ≤ painPoints p' := by
  cases p <;> cases p' <;> revert h <;> decide

/-- A higher severity band never yields fewer severity points. -/
lemma sevPoints_mono (s s' : SeverityLevel) (h : sevRank s ≤ sevRank s') :
    severityPoints s ≤ severityPoints s' := by
  cases s <;> cases s' <;> revert h <;> decide

/-- A higher duration band never yields fewer duration points. -/
lemma durationPoints_mono {d d' : Nat} (h : durationRank d ≤ durationRank d') :
    durationPoints d ≤ durationPoints d' := by
  unfold durationRank at h
  unfold durationPoints
  split_ifs at h ⊢ <;> omega

/-- Factor-wise domination never decreases the accumulated total. -/
lemma totalScore_mono {r r' : PatientInput} (h : FactorLe r r') :
    totalScore r ≤ totalScore r' := by
  obtain ⟨h1, h2, h3, h4, h5, h6, h7, h8⟩ := h
  rw [totalScore_def, totalScore_def]
  exact Nat.add_le_add (Nat.add_le_add (Nat.add_le_add (Nat.add_le_add (Nat.add_le_add
    (Nat.add_le_add (Nat.add_le_add (agePoints_mono h1) (boolPoints_mono 30 h2))
      (boolPoints_mono 25 h3)) (boolPoints_mono 10 h4)) (painPoints_mono _ _ h5))
    (sevPoints_mono _ _ h6)) h7) (durationPoints_mono h8)

/-- Age points are a multiple of five, at most 25. -/
lemma agePoints_facts (a : Nat) : 5 ∣ agePoints a ∧ agePoints a ≤ 25 := by
  unfold agePoints; split_ifs <;> omega

/-- A binary symptom's points are a multiple of five, at most its weight. -/
lemma boolPoints_facts (b : Bool) (n : Nat) (hn : 5 ∣ n) :
    5 ∣ (if b then n else 0) ∧ (if b then n else 0) ≤ n := by
  cases b <;> simp_all

/-- Pain points are a multiple of five, between 5 and 25. -/
lemma painPoints_facts (p : PainLevel) :
    5 ∣ painPoints p ∧ 5 ≤ painPoints p ∧ painPoints p ≤ 25 := by
  cases p <;> decide

/-- Severity points are a multiple of five, between 5 and 35. -/
lemma sevPoints_facts (s : SeverityLevel) :
    5 ∣ severityPoints s ∧ 5 ≤ severityPoints s ∧ severityPoints s ≤ 35 := by
  cases s <;> decide

/-- Disease points are a multiple of five, at most 20. -/
lemma diseasePoints_facts (o : Option String) :
    5 ∣ diseasePoints o ∧ diseasePoints o ≤ 20 := by
  cases o with
  | none => decide
  | some d => simp only [diseasePoints]; split_ifs <;> omega

/-- Duration points are a multiple of five, at most 10. -/
lemma durationPoints_facts (d : Nat) :
    5 ∣ durationPoints d ∧ durationPoints d ≤ 10 := by
  unfold durationPoints; split_ifs <;> omega

/-- C1: for every valid SymptomReport, the score of `predictPriority` equals
the bucketing of the additive total of the band contributions exactly as the
spec tabulates them (age, binary symptoms, pain level, severity, existing
disease, duration), with thresholds 75 and 45 and no error path: the function
is total over the embedded domain by construction. -/
theorem score_matches_spec_bands (r : PatientInput) (h : validReport r = true) :
    predictPriority r = bucket (specBandTotal r) := by
  rw [predictPriority_eq_bucket, totalScore_eq_specBandTotal]

/-- Witness for C1: spec scenario 1 is a valid report and satisfies the claim. -/
theorem score_matches_spec_bands_witness :
    validReport scenarioOneReport = true ∧
    predictPriority scenarioOneReport = bucket (specBandTotal scenarioOneReport) :=
  ⟨by decide, score_matches_spec_bands scenarioOneReport (by decide)⟩

/-- C2: the bucketing of the accumulated total is exact at the thresholds:
75 yields high, 74 yields medium, 45 yields medium, 44 yields low; and
`predictPriority` is exactly this bucketing of its accumulated total. -/
theorem bucket_boundary_exact :
    bucket 75 = Priority.high ∧ bucket 74 = Priority.medium ∧
    bucket 45 = Priority.medium ∧ bucket 44 = Priority.low ∧
    ∀ r : PatientInput, predictPriority r = bucket (totalScore r) :=
  ⟨rfl, rfl, rfl, rfl, fun _ => rfl⟩

/-- C3: moving any contributing factor to a higher band while no factor moves
lower (in particular moving a single factor with all other fields fixed)
never decreases the accumulated total, and since bucketing is monotone in the
total, never decreases the priority tier under low < medium < high. -/
theorem score_monotone_per_factor (r r' : PatientInput) (h : FactorLe r r') :
    totalScore r ≤ totalScore r' ∧
    priorityRank (predictPriority r) ≤ priorityRank (predictPriority r') := by
  refine ⟨totalScore_mono h, ?_⟩
  rw [predictPriority_eq_bucket, predictPriority_eq_bucket]
  exact bucket_rank_mono (totalScore_mono h)

/-- Witness for C3: moving the pain level from mild to moderate with all
other fields fixed. -/
theorem score_monotone_per_factor_witness :
    totalScore mildBaseReport ≤ totalScore moderatePainReport ∧
    priorityRank (predictPriority mildBaseReport) ≤
      priorityRank (predictPriority moderatePainReport) :=
  score_monotone_per_factor mildBaseReport moderatePainReport (by decide)

/-- C4: existing-disease matching is exact and case-sensitive: the lowercase
string "heart disease" contributes the generic +5, not +20; the four named
strings receive exactly their named bonuses, and every other non-empty,
non-"None" string receives +5. -/
theorem disease_match_case_sensitive :
    (∀ r : PatientInput, r.existing_disease = some "heart disease" →
      totalScore r = totalScore { r with existing_disease := none } + 5) ∧
    diseasePoints (some "heart disease") = 5 ∧
    diseasePoints (some "Heart Disease") = 20 ∧
    diseasePoints (some "Diabetes") = 15 ∧
    diseasePoints (some "Hypertension") = 15 ∧
    diseasePoints (some "Asthma") = 10 ∧
    (∀ d : String, d ≠ "" → d ≠ "None" → d ≠ "Heart Disease" → d ≠ "Diabetes" →
      d ≠ "Hypertension" → d ≠ "Asthma" → diseasePoints (some d) = 5) := by
  refine ⟨?_, by decide, by decide, by decide, by decide, by decide, ?_⟩
  · intro r h
    have h5 : diseasePoints (some "heart disease") = 5 := by decide
    have h0 : diseasePoints (none : Option String) = 0 := rfl
    rw [totalScore_def, totalScore_update_disease, h, h5, h0]
    omega
  · intro d h1 h2 h3 h4 h5 h6
    simp [diseasePoints, h1, h2, h3, h4, h5, h6]

/-- Witness for C4: a concrete report carrying "heart disease" gains exactly
5 points over the same report with no disease, and an unlisted disease
string is scored in the generic band. -/
theorem disease_match_case_sensitive_witness :
    totalScore lowerCaseDiseaseReport =
      totalScore { lowerCaseDiseaseReport with existing_disease := none } + 5 ∧
    diseasePoints (some "Cancer") = 5 :=
  ⟨disease_match_case_sensitive.1 lowerCaseDiseaseReport rfl,
   disease_match_case_sensitive.2.2.2.2.2.2 "Cancer" (by decide) (by decide)
     (by decide) (by decide) (by decide) (by decide)⟩

/-- C5: a report whose disease field holds the sentinel "None" (or the empty
string, the normalized form of an absent value) scores identically to the
same report with a null disease field: both contribute 0. -/
theorem disease_none_null_equivalent (r : PatientInput) :
    totalScore { r with existing_disease := some "None" } =
      totalScore { r with existing_disease := none } ∧
    totalScore { r with existing_disease := some "" } =
      totalScore { r with existing_disease := none } ∧
    predictPriority { r with existing_disease := some "None" } =
      predictPriority { r with existing_disease := none } ∧
    predictPriority { r with existing_disease := some "" } =
      predictPriority { r with existing_disease := none } := by
  have hN : diseasePoints (some "None") = 0 := by decide
  have hE : diseasePoints (some "") = 0 := by decide
  have h1 : totalScore { r with existing_disease := some "None" } =
      totalScore { r with existing_disease := none } := by
    rw [totalScore_update_disease, totalScore_update_disease, hN]
    rfl
  have h2 : totalScore { r with existing_disease := some "" } =
      totalScore { r with existing_disease := none } := by
    rw [totalScore_update_disease, totalScore_update_disease, hE]
    rfl
  refine ⟨h1, h2, ?_, ?_⟩
  · rw [predictPriority_eq_bucket, predictPriority_eq_bucket, h1]
  · rw [predictPriority_eq_bucket, predictPriority_eq_bucket, h2]

/-- C6: spec scenario 1 (age 75, male, chest pain, breathlessness, no fever,
severe pain, one day, critical severity, "Heart Disease") totals exactly 170,
is classified high, and its action string is the emergency-ward sentence. -/
theorem scenario_one_exact :
    totalScore scenarioOneReport = 170 ∧
    predictPriority scenarioOneReport = Priority.high ∧
    getActionMessage (predictPriority scenarioOneReport) =
      "Proceed to Emergency Ward immediately" :=
  ⟨by decide, by decide, by decide⟩

/-- C7: the action lookup is the exact fixed three-entry table; it is total
over the tier type and depends only on its argument by construction. -/
theorem action_lookup_table :
    getActionMessage Priority.high = "Proceed to Emergency Ward immediately" ∧
    getActionMessage Priority.medium = "Consult a doctor today" ∧
    getActionMessage Priority.low = "OPD visit can be scheduled later" :=
  ⟨rfl, rfl, rfl⟩

/-- C8: for every tier and token the notification is exactly the fixed
template of spec section 4.2 embedding the uppercased tier name, the literal
token and the action sentence, with a blank line between the token line and
the action and a closing signature line; in particular the low tier with
token "T-0042" renders the exact literal. -/
theorem notification_template_exact :
    (∀ (p : Priority) (token : String),
      getNotificationMessage p token = specNotificationFor p token) ∧
    getNotificationMessage Priority.low "T-0042" =
      "Dear Patient,\n\nYour condition has been assessed as LOW priority.\n\nToken Number: T-0042\n\nOPD visit can be scheduled later.\n\nThank you for using HealNav.\n\n– HealNav - Smart Care Patient Priority System" := by
  constructor
  · intro p token
    cases p <;> rfl
  · rfl

/-- C9: the boundary error mapping returns only fixed generic literals: a
validation error maps to status 400, the unique-constraint code 23505 to the
generic record-exists message with status 409, every other error to a generic
message with status 400 or 500, and the result never depends on the raw
detail text carried by the error. -/
theorem error_mapping_never_leaks :
    (∀ e : ErrorValue, (mapErrorToSafeResponse e).message ∈ safeMessages) ∧
    (∀ d : String, mapErrorToSafeResponse (ErrorValue.zodError d) =
      ⟨"Invalid input data provided. Please check your submission.", 400⟩) ∧
    (∀ d : String, mapErrorToSafeResponse (ErrorValue.pgError "23505" d) =
      ⟨"A record with this information already exists", 409⟩) ∧
    (∀ c d : String, (mapErrorToSafeResponse (ErrorValue.pgError c d)).status =
      if c = "23505" then 409 else if c = "23503" then 400 else 500) ∧
    (∀ e : ErrorValue, (mapErrorToSafeResponse e).status = 400 ∨
      (mapErrorToSafeResponse e).status = 409 ∨ (mapErrorToSafeResponse e).status = 500) ∧
    (∀ d d' : String,
      mapErrorToSafeResponse (ErrorValue.zodError d) =
        mapErrorToSafeResponse (ErrorValue.zodError d')) ∧
    (∀ c d d' : String,
      mapErrorToSafeResponse (ErrorValue.pgError c d) =
        mapErrorToSafeResponse (ErrorValue.pgError c d')) ∧
    (∀ d d' : String,
      mapErrorToSafeResponse (ErrorValue.otherError d) =
        mapErrorToSafeResponse (ErrorValue.otherError d')) := by
  refine ⟨?_, fun d => rfl, fun d => rfl, ?_, ?_, fun d d' => rfl,
    fun c d d' => rfl, fun d d' => rfl⟩
  · intro e
    cases e with
    | zodError d => simp [mapErrorToSafeResponse, safeMessages]
    | pgError c d =>
      simp only [mapErrorToSafeResponse]
      split_ifs <;> simp [safeMessages]
    | otherError d => simp [mapErrorToSafeResponse, safeMessages]
  · intro c d
    simp only [mapErrorToSafeResponse]
    split_ifs <;> rfl
  · intro e
    cases e with
    | zodError d => left; rfl
    | pgError c d =>
      simp only [mapErrorToSafeResponse]
      split_ifs
      · right; left; rfl
      · left; rfl
      · right; right; rfl
    | otherError d => right; right; rfl

/-- C10: the accumulated total of any report is a multiple of 5 between 10
and 180 inclusive (minimum from the unconditional pain and severity bands,
maximum from summing every maximal band); in particular 74 and 44 are never
produced. -/
theorem totalScore_multiple_of_five_bounded (r : PatientInput) :
    5 ∣ totalScore r ∧ 10 ≤ totalScore r ∧ totalScore r ≤ 180 ∧
    totalScore r ≠ 74 ∧ totalScore r ≠ 44 := by
  obtain ⟨a1, a2⟩ := agePoints_facts r.age
  obtain ⟨b1, b2⟩ := boolPoints_facts r.chest_pain 30 (by omega)
  obtain ⟨c1, c2⟩ := boolPoints_facts r.breathlessness 25 (by omega)
  obtain ⟨d1, d2⟩ := boolPoints_facts r.fever 10 (by omega)
  obtain ⟨e1, e2, e3⟩ := painPoints_facts r.pain_level
  obtain ⟨f1, f2, f3⟩ := sevPoints_facts r.severity_level
  obtain ⟨g1, g2⟩ := diseasePoints_facts r.existing_disease
  obtain ⟨k1, k2⟩ := durationPoints_facts r.symptom_duration_days
  rw [totalScore_def]
  omega

end HealNav
